import Mathlib

/-!
Verification of the operation-tracking core of `tden123/ssi-service`.

The development shallowly embeds:
* the namespaced BoltDB key-value store (`pkg/storage`), whose behaviour is
  modelled from the specification and pinned by the repository's own test
  `pkg/storage/bolt_test.go`;
* the operation router (`pkg/server/router/operation.go`): the filter
  declaration table, the request-to-service conversion `toServiceRequest`
  with its filter length bound, and the service-to-router mapping
  `routerModel`;
* the operation service's `Cancel`, modelled from the specification.
-/

set_option autoImplicit false

namespace SSI

/-! ## Namespaced store -/

/-- Opaque byte payloads stored by the key-value layer. -/
abbrev Payload := List Nat

/-- Entries of one namespace: an association list from keys to payloads. -/
abbrev Entries := List (String × Payload)

/-- Modelled from the spec: the state of the embedded BoltDB store
(`pkg/storage/bolt.go` is absent from the sources; only its test is
present).  The store is a partition into independently creatable and
destroyable namespaces, each holding key-to-payload entries. -/
structure BoltDB where
  namespaces : List (String × Entries)
deriving Repr, DecidableEq

/-- First-match lookup in an association list. -/
def lookup {α : Type} (l : List (String × α)) (k : String) : Option α :=
  match l with
  | [] => none
  | (k', v) :: rest => if k' = k then some v else lookup rest k

/-- Upsert: replace the payload in place if the key exists, else append. -/
def upsert {α : Type} (l : List (String × α)) (k : String) (v : α) : List (String × α) :=
  match l with
  | [] => [(k, v)]
  | (k', v') :: rest => if k' = k then (k, v) :: rest else (k', v') :: upsert rest k v

/-- Remove every binding of a key from an association list. -/
def erase {α : Type} (l : List (String × α)) (k : String) : List (String × α) :=
  l.filter (fun p => p.1 ≠ k)

/-- The error message BoltDB produces for operations against a missing
namespace (reference shape pinned by `bolt_test.go`:
`namespace<NS> does not exist`). -/
def namespaceNotFoundMsg (ns : String) : String :=
  "namespace<" ++ ns ++ "> does not exist"

/-- The error message for deleting a missing namespace (reference shape
pinned by `bolt_test.go`: `could not delete namespace<NS>`). -/
def deleteNamespaceErrMsg (ns : String) : String :=
  ("could not delete namespace<" ++ ns ++ ">") ++ (": " ++ namespaceNotFoundMsg ns)

/-- Modelled from the spec: `Write(ns, key, payload)` upserts the payload
for the key; the namespace is auto-created on first use and the call does
not fail (reference behaviour: write does not require pre-existence). -/
def BoltDB.write (db : BoltDB) (ns k : String) (v : Payload) : BoltDB :=
  match lookup db.namespaces ns with
  | none => ⟨upsert db.namespaces ns [(k, v)]⟩
  | some entries => ⟨upsert db.namespaces ns (upsert entries k v)⟩

/-- Modelled from the spec: `Read(ns, key)` returns the current payload, an
empty payload (not an error) when the key is absent but the namespace
exists, and fails with `NamespaceNotFound` when the namespace does not
exist. -/
def BoltDB.read (db : BoltDB) (ns k : String) : Except String Payload :=
  match lookup db.namespaces ns with
  | none => .error (namespaceNotFoundMsg ns)
  | some entries =>
    match lookup entries k with
    | none => .ok []
    | some v => .ok v

/-- Modelled from the spec: `ReadAll(ns)` returns every entry of the
namespace as a key-to-payload mapping, and fails with `NamespaceNotFound`
when the namespace does not exist. -/
def BoltDB.readAll (db : BoltDB) (ns : String) : Except String Entries :=
  match lookup db.namespaces ns with
  | none => .error (namespaceNotFoundMsg ns)
  | some entries => .ok entries

/-- Modelled from the spec: `Delete(ns, key)` removes the entry if present,
is not an error when the key is absent, and fails with `NamespaceNotFound`
when the namespace does not exist. -/
def BoltDB.delete (db : BoltDB) (ns k : String) : Except String BoltDB :=
  match lookup db.namespaces ns with
  | none => .error (namespaceNotFoundMsg ns)
  | some entries => .ok ⟨upsert db.namespaces ns (erase entries k)⟩

/-- Modelled from the spec: `DeleteNamespace(ns)` removes the namespace and
every entry in it, and fails with a wrapped `NamespaceNotFound`-class error
when the namespace does not exist. -/
def BoltDB.deleteNamespace (db : BoltDB) (ns : String) : Except String BoltDB :=
  match lookup db.namespaces ns with
  | none => .error (deleteNamespaceErrMsg ns)
  | some _ => .ok ⟨erase db.namespaces ns⟩

/-! ### Association-list lemmas -/

theorem lookup_upsert_self {α : Type} (l : List (String × α)) (k : String) (v : α) :
    lookup (upsert l k v) k = some v := by
  induction l with
  | nil => simp [lookup, upsert]
  | cons p rest ih =>
    obtain ⟨k', v'⟩ := p
    by_cases h : k' = k
    · simp [lookup, upsert, h]
    · simp [lookup, upsert, h, ih]

theorem lookup_upsert_other {α : Type} (l : List (String × α)) (k k' : String) (v : α)
    (hne : k ≠ k') : lookup (upsert l k v) k' = lookup l k' := by
  induction l with
  | nil => simp [lookup, upsert, hne]
  | cons p rest ih =>
    obtain ⟨k0, v0⟩ := p
    by_cases h : k0 = k
    · subst h
      simp [lookup, upsert, hne]
    · simp only [upsert, if_neg h, lookup]
      by_cases h' : k0 = k'
      · simp [h']
      · simp [h', ih]

theorem lookup_erase_self {α : Type} (l : List (String × α)) (k : String) :
    lookup (erase l k) k = none := by
  induction l with
  | nil => simp [lookup, erase]
  | cons p rest ih =>
    obtain ⟨k0, v0⟩ := p
    by_cases h : k0 = k
    · simpa [erase, h] using ih
    · simpa [erase, List.filter, h, lookup] using ih

theorem lookup_erase_other {α : Type} (l : List (String × α)) (k k' : String)
    (hne : k ≠ k') : lookup (erase l k) k' = lookup l k' := by
  induction l with
  | nil => simp [lookup, erase]
  | cons p rest ih =>
    obtain ⟨k0, v0⟩ := p
    by_cases h : k0 = k
    · subst h
      have : k0 ≠ k' := hne
      simpa [erase, List.filter, lookup, this] using ih
    · by_cases h' : k0 = k'
      · simp [erase, List.filter, h, lookup, h', Ne.symm hne]
      · simpa [erase, List.filter, h, lookup, h'] using ih

/-! ### Store claims -/

/-- Claim C1: store round-trip — for every namespace `ns`, key `k` and
payload `v`, `Write(ns,k,v)` followed by `Read(ns,k)` returns `v`. -/
theorem write_read_roundtrip (db : BoltDB) (ns k : String) (v : Payload) :
    (db.write ns k v).read ns k = .ok v := by
  unfold BoltDB.write BoltDB.read
  cases h : lookup db.namespaces ns with
  | none => simp [lookup_upsert_self, lookup]
  | some entries => simp [lookup_upsert_self]

/-- Claim C2: reading any key from a namespace that does not exist fails
with the `NamespaceNotFound` error, whose message has the exact shape
`namespace<NS> does not exist` and hence contains the namespace name; this
is distinct from the "key absent" outcome, which is a success. -/
theorem read_missing_namespace (db : BoltDB) (ns k : String)
    (h : lookup db.namespaces ns = none) :
    db.read ns k = .error (namespaceNotFoundMsg ns) ∧
    namespaceNotFoundMsg ns = "namespace<" ++ ns ++ "> does not exist" ∧
    ∀ v : Payload, db.read ns k ≠ .ok v := by
  refine ⟨?_, rfl, ?_⟩
  · unfold BoltDB.read
    simp [h]
  · intro v hv
    unfold BoltDB.read at hv
    simp [h] at hv

/-- Claim C2 witness at a concrete store and namespace. -/
theorem read_missing_namespace_witness :
    (BoltDB.mk [("F1", [("Red Bull", [1, 2])])]).read "bad" "worse"
      = .error (namespaceNotFoundMsg "bad") := by
  exact (read_missing_namespace ⟨[("F1", [("Red Bull", [1, 2])])]⟩ "bad" "worse" (by decide)).1

/-- Claim C3: reading an absent key from an existing namespace returns an
empty payload and no error. -/
theorem read_absent_key (db : BoltDB) (ns k : String) (entries : Entries)
    (hns : lookup db.namespaces ns = some entries)
    (hk : lookup entries k = none) :
    db.read ns k = .ok [] := by
  unfold BoltDB.read
  simp [hns, hk]

/-- Claim C3 witness at a concrete store, namespace and absent key. -/
theorem read_absent_key_witness :
    (BoltDB.mk [("F1", [("Red Bull", [1, 2])])]).read "F1" "Porsche" = .ok [] := by
  exact read_absent_key ⟨[("F1", [("Red Bull", [1, 2])])]⟩ "F1" "Porsche"
    [("Red Bull", [1, 2])] (by decide) (by decide)

/-- Claim C4: after `Write(ns,a,va)` and `Write(ns,b,vb)` into a fresh
namespace with `a ≠ b`, `ReadAll(ns)` returns the mapping holding exactly
the keys `a` and `b`, each bound to its payload. -/
theorem readAll_after_two_writes (db : BoltDB) (ns a b : String)
    (va vb : Payload) (hfresh : lookup db.namespaces ns = none) (hab : a ≠ b) :
    ((db.write ns a va).write ns b vb).readAll ns = .ok [(a, va), (b, vb)] := by
  unfold BoltDB.write BoltDB.readAll
  simp [hfresh, lookup_upsert_self, upsert, hab]

/-- Claim C4 witness at a concrete fresh namespace and two distinct keys. -/
theorem readAll_after_two_writes_witness :
    (((BoltDB.mk []).write "F1" "Red Bull" [1]).write "F1" "McLaren" [2]).readAll "F1"
      = .ok [("Red Bull", [1]), ("McLaren", [2])] := by
  exact readAll_after_two_writes ⟨[]⟩ "F1" "Red Bull" "McLaren" [1] [2] (by decide) (by decide)

/-- Claim C5: `Delete(ns,k)` on an existing namespace succeeds — whether or
not `k` is present — and a subsequent `Read(ns,k)` returns empty with no
error; `Delete` against a non-existent namespace fails with
`NamespaceNotFound`. -/
theorem delete_semantics (db : BoltDB) (ns k : String) :
    (∀ entries, lookup db.namespaces ns = some entries →
      ∃ db', db.delete ns k = .ok db' ∧ db'.read ns k = .ok []) ∧
    (lookup db.namespaces ns = none →
      db.delete ns k = .error (namespaceNotFoundMsg ns)) := by
  constructor
  · intro entries hns
    refine ⟨⟨upsert db.namespaces ns (erase entries k)⟩, ?_, ?_⟩
    · unfold BoltDB.delete
      simp [hns]
    · unfold BoltDB.read
      simp [lookup_upsert_self, lookup_erase_self]
  · intro hns
    unfold BoltDB.delete
    simp [hns]

/-- Claim C5 witness: deleting a present key from an existing namespace,
then reading it, gives an empty payload; deleting from a missing namespace
errors. -/
theorem delete_semantics_witness :
    (∃ db', (BoltDB.mk [("F1", [("McLaren", [2])])]).delete "F1" "McLaren" = .ok db' ∧
      db'.read "F1" "McLaren" = .ok []) ∧
    (BoltDB.mk []).delete "bad" "McLaren" = .error (namespaceNotFoundMsg "bad") := by
  constructor
  · exact (delete_semantics ⟨[("F1", [("McLaren", [2])])]⟩ "F1" "McLaren").1
      [("McLaren", [2])] (by decide)
  · exact (delete_semantics ⟨[]⟩ "bad" "McLaren").2 (by decide)

/-- Claim C6: `DeleteNamespace(ns)` on a non-existent namespace fails with
an error whose message starts with `could not delete namespace<NS>`; after
a successful `DeleteNamespace(ns)`, every subsequent `Read(ns,k)` fails
with `NamespaceNotFound`. -/
theorem deleteNamespace_semantics (db : BoltDB) (ns : String) :
    (lookup db.namespaces ns = none →
      db.deleteNamespace ns = .error (deleteNamespaceErrMsg ns) ∧
      ∃ rest, deleteNamespaceErrMsg ns = "could not delete namespace<" ++ ns ++ ">" ++ rest) ∧
    (∀ db', db.deleteNamespace ns = .ok db' →
      ∀ k, db'.read ns k = .error (namespaceNotFoundMsg ns)) := by
  constructor
  · intro hns
    refine ⟨?_, ": " ++ namespaceNotFoundMsg ns, ?_⟩
    · unfold BoltDB.deleteNamespace
      simp [hns]
    · rfl
  · intro db' hdel k
    unfold BoltDB.deleteNamespace at hdel
    cases hns : lookup db.namespaces ns with
    | none => simp [hns] at hdel
    | some entries =>
      simp [hns] at hdel
      subst hdel
      unfold BoltDB.read
      simp [lookup_erase_self]

/-- Claim C6 witness: deleting a missing namespace errors with the wrapped
message; after deleting an existing namespace, reading from it errors. -/
theorem deleteNamespace_semantics_witness :
    (BoltDB.mk []).deleteNamespace "bad" = .error (deleteNamespaceErrMsg "bad") ∧
    (BoltDB.mk []).read "F1" "Red Bull" = .error (namespaceNotFoundMsg "F1") := by
  constructor
  · exact ((deleteNamespace_semantics ⟨[]⟩ "bad").1 (by decide)).1
  · exact (deleteNamespace_semantics ⟨[("F1", [("Red Bull", [1])])]⟩ "F1").2
      ⟨[]⟩ (by rfl) "Red Bull"

/-! ## Filter declarations and request conversion (`pkg/server/router/operation.go`) -/

/-- Types of the filter language; the operation router only declares the
boolean type (`filtering.TypeBool`). -/
inductive FilterType where
  | bool
deriving DecidableEq, Repr

/-- One entry of a filter declaration table: either a function overload
(`filtering.DeclareFunction` with `filtering.NewFunctionOverload`, whose
first type argument is the result and the rest the parameters) or a typed
identifier (`filtering.DeclareIdent`). -/
inductive FilterDecl where
  | function (name : String) (overloadID : String) (result : FilterType) (params : List FilterType)
  | ident (name : String) (t : FilterType)
deriving DecidableEq, Repr

/-- Name constant of the equality function in the AIP filtering library
(`filtering.FunctionEquals`). -/
def FunctionEquals : String := "="

/-- Overload identifier constant from the AIP filtering library
(`filtering.FunctionOverloadEqualsString`). -/
def FunctionOverloadEqualsString : String := "equals_string"

/-- Source constant `DoneIdentifier = "done"`. -/
def DoneIdentifier : String := "done"

/-- Source constant `True = "true"` (renamed: `True` is a Lean proposition). -/
def TrueIdentifier : String := "true"

/-- Source constant `False = "false"` (renamed: `False` is a Lean proposition). -/
def FalseIdentifier : String := "false"

/-- The declaration table built by `toServiceRequest`: a boolean equality
overload and the three boolean identifiers `done`, `true`, `false`. -/
def operationDeclarations : List FilterDecl :=
  [FilterDecl.function FunctionEquals FunctionOverloadEqualsString .bool [.bool, .bool],
   FilterDecl.ident DoneIdentifier .bool,
   FilterDecl.ident TrueIdentifier .bool,
   FilterDecl.ident FalseIdentifier .bool]

/-- Source constant `FilterCharacterLimit = 1024`. -/
def FilterCharacterLimit : Nat := 1024

/-- The error produced when the filter string exceeds the length bound. -/
def filterLengthErrMsg : String :=
  "filter longer than " ++ toString FilterCharacterLimit ++ " character size limit"

/-- The transport-level list request (`listOperationsRequest`). -/
structure listOperationsRequest where
  Parent : String
  Filter : String
deriving DecidableEq, Repr

/-- Source method `GetFilter` of `listOperationsRequest`. -/
def listOperationsRequest.GetFilter (r : listOperationsRequest) : String :=
  r.Filter

/-- Modelled from the spec: filter expressions as an abstract syntax of
identifiers and binary function applications (the only declared function,
equality, is binary); the AIP filtering library that produces them is
external to the repository. -/
inductive FilterExpr where
  | ident (name : String)
  | app2 (fn : String) (lhs rhs : FilterExpr)
deriving DecidableEq, Repr

/-- Look up a declared identifier's type in a declaration table. -/
def lookupIdentType (decls : List FilterDecl) (name : String) : Option FilterType :=
  match decls with
  | [] => none
  | FilterDecl.ident n t :: rest => if n = name then some t else lookupIdentType rest name
  | FilterDecl.function _ _ _ _ :: rest => lookupIdentType rest name

/-- Look up a declared function overload matching the argument types. -/
def lookupOverload (decls : List FilterDecl) (fn : String) (args : List FilterType) :
    Option FilterType :=
  match decls with
  | [] => none
  | FilterDecl.function n _ result params :: rest =>
    if n = fn ∧ params = args then some result else lookupOverload rest fn args
  | FilterDecl.ident _ _ :: rest => lookupOverload rest fn args

/-- Modelled from the spec: the parse-time check of a filter expression
against the declaration table — identifiers must be declared and function
applications must match a declared overload; anything else is rejected at
parse time (the parser itself lives in the external AIP filtering
library). -/
def checkExpr (decls : List FilterDecl) : FilterExpr → Option FilterType
  | .ident n => lookupIdentType decls n
  | .app2 f a b =>
    match checkExpr decls a, checkExpr decls b with
    | some ta, some tb => lookupOverload decls f [ta, tb]
    | _, _ => none

/-- Whether an expression only uses the constructs declared by the
operation router: the identifiers `done`, `true`, `false` and the equality
function. -/
def usesOnlyDeclared : FilterExpr → Bool
  | .ident n => (n == DoneIdentifier) || (n == TrueIdentifier) || (n == FalseIdentifier)
  | .app2 f a b => (f == FunctionEquals) && usesOnlyDeclared a && usesOnlyDeclared b

/-- The service-level list request (`operation.ListOperationsRequest`):
parent string and compiled filter (`none` models the empty filter). -/
structure ListOperationsRequest where
  Parent : String
  Filter : Option FilterExpr
deriving DecidableEq, Repr

/-- Source function `toServiceRequest`, parameterised by the string-level
filter front-end of the external AIP library: the length of the filter is
bounded before the front-end is consulted, then the filter is parsed
against `operationDeclarations`. -/
def toServiceRequest
    (parseFilter : String → List FilterDecl → Except String (Option FilterExpr))
    (r : listOperationsRequest) : Except String ListOperationsRequest :=
  if r.GetFilter.length > FilterCharacterLimit then
    .error filterLengthErrMsg
  else
    match parseFilter r.GetFilter operationDeclarations with
    | .error e => .error ("parsing filter: " ++ e)
    | .ok f => .ok { Parent := r.Parent, Filter := f }

/-- Claim C7: for every filter string longer than the fixed bound of 1024
characters, `toServiceRequest` fails with the length error, and it does so
for every possible grammar front-end — so no grammar parsing is
attempted. -/
theorem toServiceRequest_length_bound
    (parseFilter : String → List FilterDecl → Except String (Option FilterExpr))
    (r : listOperationsRequest) (h : r.Filter.length > FilterCharacterLimit) :
    toServiceRequest parseFilter r = .error filterLengthErrMsg ∧
    ∀ parseFilter2, toServiceRequest parseFilter r = toServiceRequest parseFilter2 r := by
  have hlen : r.GetFilter.length > FilterCharacterLimit := h
  constructor
  · unfold toServiceRequest
    simp [hlen]
  · intro parseFilter2
    unfold toServiceRequest
    simp [hlen]

/-- Claim C7 witness: a concrete 1025-character filter string is rejected
with the length error. -/
theorem toServiceRequest_length_bound_witness :
    toServiceRequest (fun _ _ => .ok none)
      ⟨"", String.mk (List.replicate 1025 'a')⟩ = .error filterLengthErrMsg := by
  exact (toServiceRequest_length_bound (fun _ _ => .ok none)
    ⟨"", String.mk (List.replicate 1025 'a')⟩
    (by
      have hl : (String.mk (List.replicate 1025 'a')).length = 1025 :=
        List.length_replicate 1025 'a'
      show FilterCharacterLimit < (String.mk (List.replicate 1025 'a')).length
      rw [hl]
      norm_num [FilterCharacterLimit])).1

/-- Claim C8: the declaration table contains exactly the boolean equality
overload and the boolean identifiers `done`, `true`, `false`; and every
filter expression using any construct outside these declarations is
rejected by the parse-time check. -/
theorem filter_grammar_rejects_undeclared :
    operationDeclarations =
      [FilterDecl.function FunctionEquals FunctionOverloadEqualsString .bool [.bool, .bool],
       FilterDecl.ident DoneIdentifier .bool,
       FilterDecl.ident TrueIdentifier .bool,
       FilterDecl.ident FalseIdentifier .bool] ∧
    ∀ e : FilterExpr, usesOnlyDeclared e = false →
      checkExpr operationDeclarations e = none := by
  refine ⟨rfl, ?_⟩
  intro e
  induction e with
  | ident n =>
    intro h
    by_cases h1 : n = DoneIdentifier
    · subst h1
      simp [usesOnlyDeclared] at h
    by_cases h2 : n = TrueIdentifier
    · subst h2
      simp [usesOnlyDeclared] at h
    by_cases h3 : n = FalseIdentifier
    · subst h3
      simp [usesOnlyDeclared] at h
    simp [checkExpr, lookupIdentType, operationDeclarations,
      Ne.symm h1, Ne.symm h2, Ne.symm h3]
  | app2 f a b iha ihb =>
    intro h
    cases hca : checkExpr operationDeclarations a with
    | none => simp [checkExpr, hca]
    | some ta =>
      cases hcb : checkExpr operationDeclarations b with
      | none => simp [checkExpr, hca, hcb]
      | some tb =>
        have ha : usesOnlyDeclared a = true := by
          cases hu : usesOnlyDeclared a with
          | false => rw [iha hu] at hca; exact absurd hca (by simp)
          | true => rfl
        have hb : usesOnlyDeclared b = true := by
          cases hu : usesOnlyDeclared b with
          | false => rw [ihb hu] at hcb; exact absurd hcb (by simp)
          | true => rfl
        have hf : ¬(f = FunctionEquals) := by
          intro hf'
          simp only [usesOnlyDeclared] at h
          rw [ha, hb, hf'] at h
          simp at h
        cases ta
        cases tb
        simp only [checkExpr]
        rw [hca, hcb]
        simp [lookupOverload, operationDeclarations, Ne.symm hf]

/-- Claim C8 witness: the undeclared identifier `status` and a
non-equality function application are both rejected. -/
theorem filter_grammar_rejects_undeclared_witness :
    checkExpr operationDeclarations (.ident "status") = none ∧
    checkExpr operationDeclarations
      (.app2 "<" (.ident "done") (.ident "true")) = none := by
  constructor
  · exact filter_grammar_rejects_undeclared.2 (.ident "status") (by decide)
  · exact filter_grammar_rejects_undeclared.2
      (.app2 "<" (.ident "done") (.ident "true")) (by decide)

/-! ## Operation records, `routerModel` and `Cancel` -/

/-- Modelled from the spec: the manifest service's
`SubmitApplicationResponse` (its declaring package is absent from the
sources); the fields are the three read by `routerModel`. Payloads the
core treats opaquely are modelled as strings. -/
structure ManifestSubmitApplicationResponse where
  Response : String
  Credentials : List String
  ResponseJWT : String
deriving DecidableEq, Repr

/-- The dynamically typed (`any`) response payload of a service-level
operation result: either a manifest `SubmitApplicationResponse`, which
`routerModel` converts field by field, or some other opaque value. -/
inductive ResponseValue where
  | submitApplication (r : ManifestSubmitApplicationResponse)
  | other (v : String)
deriving DecidableEq, Repr

/-- The service-level operation result (`operation.Operation.Result`):
error string plus optional response; `none` models a nil `any`. -/
structure ServiceOperationResult where
  Error : String
  Response : Option ResponseValue
deriving DecidableEq, Repr

/-- The service-level operation record (`operation.Operation`). -/
structure ServiceOperation where
  ID : String
  Done : Bool
  Result : ServiceOperationResult
deriving DecidableEq, Repr

/-- The router's `SubmitApplicationResponse` (declared elsewhere in the
router package, absent from the sources); the fields are the three
assigned by `routerModel`. -/
structure SubmitApplicationResponse where
  Response : String
  Credentials : List String
  ResponseJWT : String
deriving DecidableEq, Repr

/-- The router-level response payload (`OperationResult.Response`, an
`any` in the source). -/
inductive RouterResponseValue where
  | submitApplication (r : SubmitApplicationResponse)
  | other (v : String)
deriving DecidableEq, Repr

/-- Source struct `OperationResult` of the router. -/
structure OperationResult where
  Error : String
  Response : Option RouterResponseValue
deriving DecidableEq, Repr

/-- Source struct `Operation` of the router. -/
structure Operation where
  ID : String
  Done : Bool
  Result : OperationResult
deriving DecidableEq, Repr

/-- Source function `routerModel`: maps a service-level operation record to
the router's envelope, converting a manifest `SubmitApplicationResponse`
field by field and passing any other non-nil response through. -/
def routerModel (op : ServiceOperation) : Operation :=
  let routerOp : Operation :=
    { ID := op.ID, Done := op.Done,
      Result := { Error := op.Result.Error, Response := none } }
  match op.Result.Response with
  | none => routerOp
  | some (.submitApplication r) =>
    { routerOp with Result :=
        { routerOp.Result with Response := some (.submitApplication
            { Response := r.Response, Credentials := r.Credentials,
              ResponseJWT := r.ResponseJWT }) } }
  | some (.other v) =>
    { routerOp with Result :=
        { routerOp.Result with Response := some (.other v) } }

/-- The cancellation error recorded on a cancelled operation. Modelled
from the spec: the operation service marking a record done with a
cancellation error (the service package is absent from the sources). -/
def cancelledErrMsg : String := "operation cancelled"

/-- Modelled from the spec: the operation service's `Cancel` over the
persisted id-to-record store (the service package is absent from the
sources): an unknown id fails; a not-yet-done record is marked done with
the cancellation error and persisted; an already-done record is returned
unchanged, with the store untouched. -/
def cancelOperation (store : List (String × ServiceOperation)) (id : String) :
    Except String (ServiceOperation × List (String × ServiceOperation)) :=
  match lookup store id with
  | none => .error ("operation not found with id: " ++ id)
  | some op =>
    if op.Done then .ok (op, store)
    else
      let cancelled : ServiceOperation :=
        { op with
          Done := true,
          Result := { Error := cancelledErrMsg, Response := none } }
      .ok (cancelled, upsert store id cancelled)

/-- Claim C9: cancelling a not-yet-done operation marks it done with the
cancellation error and persists it under its id; cancelling an
already-done operation returns the existing terminal record and leaves the
store unchanged. -/
theorem cancel_semantics (store : List (String × ServiceOperation))
    (id : String) (op : ServiceOperation) (hfound : lookup store id = some op) :
    (op.Done = false →
      ∃ op', cancelOperation store id = .ok (op', upsert store id op') ∧
        op'.Done = true ∧ op'.Result.Error = cancelledErrMsg ∧
        op'.ID = op.ID ∧ lookup (upsert store id op') id = some op') ∧
    (op.Done = true → cancelOperation store id = .ok (op, store)) := by
  constructor
  · intro hdone
    refine ⟨{ op with
              Done := true,
              Result := { Error := cancelledErrMsg, Response := none } },
      ?_, rfl, rfl, rfl, ?_⟩
    · unfold cancelOperation
      simp [hfound, hdone]
    · exact lookup_upsert_self store id _
  · intro hdone
    unfold cancelOperation
    simp [hfound, hdone]

/-- Claim C9 witness: a concrete not-done operation is cancelled and
persisted; a concrete done operation is returned unchanged with the store
untouched. -/
theorem cancel_semantics_witness :
    (∃ op', cancelOperation [("A", ⟨"A", false, ⟨"", none⟩⟩)] "A"
        = .ok (op', upsert [("A", ⟨"A", false, ⟨"", none⟩⟩)] "A" op') ∧
      op'.Done = true ∧ op'.Result.Error = cancelledErrMsg ∧
      op'.ID = "A" ∧
      lookup (upsert [("A", ⟨"A", false, ⟨"", none⟩⟩)] "A" op') "A" = some op') ∧
    cancelOperation [("B", ⟨"B", true, ⟨"x", none⟩⟩)] "B"
      = .ok (⟨"B", true, ⟨"x", none⟩⟩, [("B", ⟨"B", true, ⟨"x", none⟩⟩)]) := by
  constructor
  · exact (cancel_semantics [("A", ⟨"A", false, ⟨"", none⟩⟩)] "A"
      ⟨"A", false, ⟨"", none⟩⟩ (by rfl)).1 rfl
  · exact (cancel_semantics [("B", ⟨"B", true, ⟨"x", none⟩⟩)] "B"
      ⟨"B", true, ⟨"x", none⟩⟩ (by rfl)).2 rfl

/-- Claim C10: `routerModel` preserves `ID`, `Done` and `Result.Error`
exactly; a nil service response leaves the router response unset; a
manifest `SubmitApplicationResponse` is converted field by field; every
other response value passes through unchanged. -/
theorem routerModel_preserves (op : ServiceOperation) :
    (routerModel op).ID = op.ID ∧
    (routerModel op).Done = op.Done ∧
    (routerModel op).Result.Error = op.Result.Error ∧
    (op.Result.Response = none → (routerModel op).Result.Response = none) ∧
    (∀ r, op.Result.Response = some (.submitApplication r) →
      (routerModel op).Result.Response = some (.submitApplication
        ⟨r.Response, r.Credentials, r.ResponseJWT⟩)) ∧
    (∀ v, op.Result.Response = some (.other v) →
      (routerModel op).Result.Response = some (.other v)) := by
  cases hresp : op.Result.Response with
  | none =>
    refine ⟨?_, ?_, ?_, ?_, ?_, ?_⟩ <;> simp [routerModel, hresp]
  | some rv =>
    cases rv with
    | submitApplication r =>
      refine ⟨?_, ?_, ?_, ?_, ?_, ?_⟩ <;> simp [routerModel, hresp]
    | other v =>
      refine ⟨?_, ?_, ?_, ?_, ?_, ?_⟩ <;> simp [routerModel, hresp]

/-- Claim C10 witness: the preservation facts evaluated on a concrete
operation carrying a manifest `SubmitApplicationResponse`. -/
theorem routerModel_preserves_witness :
    (routerModel ⟨"m", true, ⟨"", some (.submitApplication ⟨"resp", ["c1"], "jwt"⟩)⟩⟩).ID = "m" ∧
    (routerModel ⟨"m", true, ⟨"", some (.submitApplication ⟨"resp", ["c1"], "jwt"⟩)⟩⟩).Result.Response
      = some (.submitApplication ⟨"resp", ["c1"], "jwt"⟩) := by
  constructor
  · exact (routerModel_preserves ⟨"m", true, ⟨"", some (.submitApplication ⟨"resp", ["c1"], "jwt"⟩)⟩⟩).1
  · exact (routerModel_preserves ⟨"m", true, ⟨"", some (.submitApplication ⟨"resp", ["c1"], "jwt"⟩)⟩⟩).2.2.2.2.1
      ⟨"resp", ["c1"], "jwt"⟩ rfl

end SSI
